import Mathlib

/-!
Verification of the 8004 Pawn Shop gateway (`src/api/main.py`).

The development shallowly embeds the pure quality-scoring and pricing
functions and the gateway operations (`evaluate`, `deposit`, `purchase`,
`check_access`) as Lean functions.  External collaborators (the IPFS store
and the on-chain PawnShop contract) are modelled as oracle functions
gathered in a `Ports` structure; every gateway operation returns, next to
its result, the list of port calls it performed, so that frame conditions
("no ledger write happened") are plain statements about that list.
-/

set_option maxRecDepth 8000

namespace PawnShop

/-- Does `pat` match the first `pat.length` elements of `s`?
(Helper for Python's substring containment test `pat in code`.) -/
def matchesAt : List Char → List Char → Bool
  | [], _ => true
  | _ :: _, [] => false
  | a :: as, b :: bs => a == b && matchesAt as bs

/-- Does `pat` occur as a contiguous run inside `s`?
(Helper for Python's substring containment test `pat in code`.) -/
def containsSub (pat : List Char) : List Char → Bool
  | [] => matchesAt pat []
  | c :: rest => matchesAt pat (c :: rest) || containsSub pat rest

/-- Python's `pat in code` substring test. -/
def strContains (code pat : String) : Bool :=
  containsSub pat.toList code.toList

/-- Python's `code.split('\n')` on the character list: cut at every
newline, keeping empty pieces, so the result always has
`count '\n' + 1` entries. -/
def splitOnNl : List Char → List (List Char)
  | [] => [[]]
  | c :: rest =>
    match splitOnNl rest with
    | [] => [[]]
    | l :: ls => if c = '\n' then [] :: l :: ls else (c :: l) :: ls

/-- Length signal of `estimate_quality`: `lines = code.count('\n') + 1`;
`10 <= lines <= 500` gives 100, `lines < 10` gives 50, otherwise 70. -/
def lengthScore (code : String) : Nat :=
  let lines := code.toList.count '\n' + 1
  if 10 ≤ lines ∧ lines ≤ 500 then 100
  else if lines < 10 then 50
  else 70

/-- Structure signal of `estimate_quality`: any of `"def "`, `"class "`,
`"function "` occurring in the text gives 100, otherwise 60. -/
def structureScore (code : String) : Nat :=
  if strContains code "def " || strContains code "class " ||
      strContains code "function " then 100 else 60

/-- Documentation signal of `estimate_quality`: any of `"#"`, `"//"`,
`"\"\"\""` occurring in the text gives 90, otherwise 70. -/
def docScore (code : String) : Nat :=
  if strContains code "#" || strContains code "//" ||
      strContains code "\"\"\"" then 90 else 70

/-- Line-width signal of `estimate_quality`: the number of lines of
`code.split('\n')` longer than 120 characters; 0 gives 100, fewer than 5
gives 80, otherwise 50. -/
def widthScore (code : String) : Nat :=
  let longLines := ((splitOnNl code.toList).filter (fun l => 120 < l.length)).length
  if longLines = 0 then 100
  else if longLines < 5 then 80
  else 50

/-- `estimate_quality` from `src/api/main.py`: the four sub-scores are
collected in a list of length 4 and `int(sum(scores)/len(scores))` is
clamped by `max(10, min(100, _))`.  The Python float division `sum/4` is
exact (a division by 4 of an integer far below 2^53) and `int` truncates
towards zero, so it equals natural-number division by 4. -/
def estimate_quality (code : String) : Nat :=
  let avg := (lengthScore code + structureScore code + docScore code +
      widthScore code) / 4
  max 10 (min 100 avg)

/-- Credits formula of `evaluate` and the deposit receipt:
`credits = quality * 10`. -/
def creditsOf (quality : Nat) : Nat := quality * 10

/-- Price formula of `evaluate`: `price = int(credits * 0.85)`.  For every
integer `credits` in `[0, 1000]` (which covers every value `quality * 10`
with `quality ≤ 100`), the IEEE-754 double product `credits * 0.85`
truncates to the same integer as the exact rational floor
`credits * 17 / 20`, so the computation is embedded exactly as that
natural-number expression. -/
def priceOf (quality : Nat) : Nat := creditsOf quality * 17 / 20

/-- `/api/evaluate` response record. -/
structure EvaluateResponse where
  code_hash : String
  quality : Nat
  estimated_credits : Nat
  estimated_price : Nat
  recommendation : String
deriving DecidableEq

/-- `evaluate` from `src/api/main.py`.  The keccak256 content hash is
computed by the external web3 library, so it is passed in as the function
parameter `hashCode`. -/
def evaluate (hashCode : String → String) (code : String) : EvaluateResponse :=
  let quality := estimate_quality code
  { code_hash := hashCode code
    quality := quality
    estimated_credits := creditsOf quality
    estimated_price := priceOf quality
    recommendation := if 50 ≤ quality then "deposit" else "improve_quality" }

/-- On-chain pattern record, the tuple returned by the contract's
`getPattern` (field order as in the ABI). -/
structure Pattern where
  ipfsUri : String
  seller : String
  price : Nat
  quality : Nat
  timesSold : Nat
  active : Bool
deriving DecidableEq

/-- The zero-initialised record a Solidity mapping lookup yields for an
absent key: in particular `active = false`. -/
def zeroPattern : Pattern := ⟨"", "", 0, 0, 0, false⟩

/-- A state-changing ledger transaction built and signed by the gateway. -/
inductive Tx where
  | depositTx (codeHash ipfsUri : String) (quality : Nat)
  | purchaseTx (codeHash : String)
deriving DecidableEq

/-- One outbound call to a collaborator port, recorded in order. -/
inductive PortCall where
  | storePut (code : String)
  | storeGet (uri : String)
  | ledgerGetPattern (codeHash : String)
  | ledgerHasAccess (buyer codeHash : String)
  | ledgerSendTx (tx : Tx)
deriving DecidableEq

/-- Oracles for the two collaborator ports.  `none` models a raised
failure (`StoreError` on the store side, a web3 transaction failure on the
ledger side).  `patterns` is the ledger's pattern mapping; a contract read
of an absent key returns `zeroPattern`. -/
structure Ports where
  storePut : String → Option String
  storeGet : String → Option String
  patterns : String → Option Pattern
  hasAccess : String → String → Bool
  sendTx : Tx → Option String

/-- The contract's `getPattern` view call: mapping lookup with Solidity
zero-default. -/
def Ports.getPattern (ports : Ports) (codeHash : String) : Pattern :=
  (ports.patterns codeHash).getD zeroPattern

/-- A `fastapi.HTTPException`: status code and detail message. -/
structure HTTPError where
  status : Nat
  detail : String
deriving DecidableEq

/-- The unsigned write descriptor `tx_data` returned by quote-mode
deposit: `{to, function, args: [code_hash, ipfs_uri, quality]}`
(the `to` field is named `toAddr` because `to` is reserved in Lean). -/
structure TxData where
  toAddr : String
  fn : String
  argCodeHash : String
  argIpfsUri : String
  argQuality : Nat
deriving DecidableEq

/-- Quote-mode deposit response (no private key supplied). -/
structure QuoteResponse where
  code_hash : String
  ipfs_uri : String
  quality : Nat
  estimated_credits : Nat
  tx_data : TxData
  message : String
deriving DecidableEq

/-- Commit-mode deposit response (transaction signed and sent). -/
structure ReceiptResponse where
  code_hash : String
  ipfs_uri : String
  quality : Nat
  credits : Nat
  tx_hash : String
  message : String
deriving DecidableEq

/-- The two shapes of a successful `/api/deposit` response. -/
inductive DepositResponse where
  | quote (r : QuoteResponse)
  | receipt (r : ReceiptResponse)
deriving DecidableEq

/-- `/api/purchase` response record. -/
structure PurchaseResponse where
  code_hash : String
  price : Nat
  tx_hash : String
  message : String
deriving DecidableEq

/-- `/api/access` response: either `{has_access: false, code: null}` or
`{has_access: true, ipfs_uri, code}` where `code` is `none` when the
store fetch failed. -/
inductive AccessResponse where
  | denied
  | granted (ipfs_uri : String) (code : Option String)
deriving DecidableEq

/-- The `has_access` field of an `/api/access` response. -/
def AccessResponse.hasAccess : AccessResponse → Bool
  | .denied => false
  | .granted _ _ => true

/-- The `code` field of an `/api/access` response. -/
def AccessResponse.code : AccessResponse → Option String
  | .denied => none
  | .granted _ c => c

/-- `deposit` from `src/api/main.py`.  Steps in source order: length
validation, quality, hash, IPFS upload, then either the unsigned quote
(Python truthiness: a missing or empty `private_key` selects quote mode)
or the signed ledger transaction.  The keccak hash function is a
parameter as in `evaluate`; `pawnShopAddress` is the configured contract
address (`get_pawn_shop` raises 500 when it is empty). -/
def deposit (ports : Ports) (hashCode : String → String) (pawnShopAddress : String)
    (code : String) (privateKey : Option String) :
    Except HTTPError DepositResponse × List PortCall :=
  if code.length < 50 then
    (.error ⟨400, "Code too short (min 50 chars)"⟩, [])
  else
    let quality := estimate_quality code
    let codeHash := hashCode code
    match ports.storePut code with
    | none => (.error ⟨500, "IPFS upload failed"⟩, [.storePut code])
    | some ipfsUri =>
      if privateKey.getD "" = "" then
        (.ok (.quote ⟨codeHash, ipfsUri, quality, quality * 10,
            ⟨pawnShopAddress, "deposit", codeHash, ipfsUri, quality⟩,
            "Sign and submit this transaction to deposit"⟩),
          [.storePut code])
      else
        if pawnShopAddress = "" then
          (.error ⟨500, "PawnShop contract not configured"⟩, [.storePut code])
        else
          let tx := Tx.depositTx codeHash ipfsUri quality
          match ports.sendTx tx with
          | none => (.error ⟨500, "Ledger transaction failed"⟩,
              [.storePut code, .ledgerSendTx tx])
          | some txHash =>
            (.ok (.receipt ⟨codeHash, ipfsUri, quality, quality * 10, txHash,
                "Deposited! +" ++ toString (quality * 10) ++ " $RECYCLE"⟩),
              [.storePut code, .ledgerSendTx tx])

/-- `purchase` from `src/api/main.py`: read the pattern from the ledger;
when it is absent or inactive raise 404; otherwise sign and send the
purchase transaction.  The hash argument is kept as its hex string. -/
def purchase (ports : Ports) (pawnShopAddress : String)
    (codeHash : String) (_privateKey : String) :
    Except HTTPError PurchaseResponse × List PortCall :=
  if pawnShopAddress = "" then
    (.error ⟨500, "PawnShop contract not configured"⟩, [])
  else
    let pattern := ports.getPattern codeHash
    if pattern.active = false then
      (.error ⟨404, "Pattern not found or inactive"⟩, [.ledgerGetPattern codeHash])
    else
      let tx := Tx.purchaseTx codeHash
      match ports.sendTx tx with
      | none => (.error ⟨500, "Ledger transaction failed"⟩,
          [.ledgerGetPattern codeHash, .ledgerSendTx tx])
      | some txHash =>
        (.ok ⟨codeHash, pattern.price, txHash,
            "Purchased! -" ++ toString pattern.price ++ " $RECYCLE"⟩,
          [.ledgerGetPattern codeHash, .ledgerSendTx tx])

/-- `check_access` from `src/api/main.py`: ask the ledger's access
boolean; when false return immediately; when true read the pattern's IPFS
URI and try to fetch the content, swallowing any fetch failure into
`code = none` (the bare `except` in the source). -/
def check_access (ports : Ports) (pawnShopAddress buyer codeHash : String) :
    Except HTTPError AccessResponse × List PortCall :=
  if pawnShopAddress = "" then
    (.error ⟨500, "PawnShop contract not configured"⟩, [])
  else if ports.hasAccess buyer codeHash = false then
    (.ok .denied, [.ledgerHasAccess buyer codeHash])
  else
    let pattern := ports.getPattern codeHash
    let ipfsUri := pattern.ipfsUri
    let fetched := ports.storeGet ipfsUri
    (.ok (.granted ipfsUri fetched),
      [.ledgerHasAccess buyer codeHash, .ledgerGetPattern codeHash,
        .storeGet ipfsUri])

/-- Classifier: is this port call directed at the Store Port? -/
def isStoreCall : PortCall → Bool
  | .storePut _ => true
  | .storeGet _ => true
  | _ => false

/-- Classifier: is this port call directed at the Ledger Port
(reads and writes alike)? -/
def isLedgerCall : PortCall → Bool
  | .ledgerGetPattern _ => true
  | .ledgerHasAccess _ _ => true
  | .ledgerSendTx _ => true
  | _ => false

/-- Classifier: is this port call a state-changing ledger write
(a signed transaction submission)? -/
def isLedgerWrite : PortCall → Bool
  | .ledgerSendTx _ => true
  | _ => false

/-- A text realising the minimal sub-scores: 5 lines (fewer than 10),
each 121 characters of `a` (so 5 lines exceed 120 characters), with no
structure keyword and no comment marker. -/
def minText : String :=
  String.join (List.intersperse "\n"
    (List.replicate 5 (String.mk (List.replicate 121 'a'))))

/-- A text realising the maximal sub-scores and the spec's 60-line
scenario: 60 short lines, a `def ` keyword and a `#` comment marker. -/
def maxText : String := "def f:\n# c" ++ String.join (List.replicate 58 "\nx")

/-- A 55-character code sample used to exercise the deposit paths. -/
def quoteCode : String :=
  "def add(a, b):\n    # add two numbers\n    return a + b\n"

/-- Port fixture: store and ledger behave; no pattern exists and no buyer
has access. -/
def happyPorts : Ports where
  storePut := fun _ => some "ipfs://mock/1234567890abcdef"
  storeGet := fun _ => some "def f: pass"
  patterns := fun _ => none
  hasAccess := fun _ _ => false
  sendTx := fun _ => some "0xtxhash"

/-- Port fixture: an active pattern exists and the buyer has access, but
every store fetch fails. -/
def failStorePorts : Ports where
  storePut := fun _ => some "ipfs://mock/1234567890abcdef"
  storeGet := fun _ => none
  patterns := fun _ => some ⟨"ipfs://QmXyz", "0xseller", 824, 97, 0, true⟩
  hasAccess := fun _ _ => true
  sendTx := fun _ => some "0xtxhash"

/-- The length signal only takes the values 100, 50 and 70. -/
theorem lengthScore_cases (c : String) :
    lengthScore c = 100 ∨ lengthScore c = 50 ∨ lengthScore c = 70 := by
  unfold lengthScore
  dsimp only
  split
  · exact .inl rfl
  · split
    · exact .inr (.inl rfl)
    · exact .inr (.inr rfl)

/-- The structure signal only takes the values 100 and 60. -/
theorem structureScore_cases (c : String) :
    structureScore c = 100 ∨ structureScore c = 60 := by
  unfold structureScore
  split
  · exact .inl rfl
  · exact .inr rfl

/-- The documentation signal only takes the values 90 and 70. -/
theorem docScore_cases (c : String) :
    docScore c = 90 ∨ docScore c = 70 := by
  unfold docScore
  split
  · exact .inl rfl
  · exact .inr rfl

/-- The line-width signal only takes the values 100, 80 and 50. -/
theorem widthScore_cases (c : String) :
    widthScore c = 100 ∨ widthScore c = 80 ∨ widthScore c = 50 := by
  unfold widthScore
  dsimp only
  split
  · exact .inl rfl
  · split
    · exact .inr (.inl rfl)
    · exact .inr (.inr rfl)

/-- The sum of the four sub-scores lies between 230 and 390. -/
theorem subscoreSum_bounds (c : String) :
    230 ≤ lengthScore c + structureScore c + docScore c + widthScore c ∧
      lengthScore c + structureScore c + docScore c + widthScore c ≤ 390 := by
  rcases lengthScore_cases c with h1 | h1 | h1 <;>
    rcases structureScore_cases c with h2 | h2 <;>
      rcases docScore_cases c with h3 | h3 <;>
        rcases widthScore_cases c with h4 | h4 | h4 <;>
          rw [h1, h2, h3, h4] <;> omega

/-- The quality score equals the truncated average of the sub-scores and
lies between 57 and 97; the `max 10 (min 100 _)` clamp is inactive. -/
theorem estimate_quality_range (c : String) :
    57 ≤ estimate_quality c ∧ estimate_quality c ≤ 97 ∧
      estimate_quality c =
        (lengthScore c + structureScore c + docScore c + widthScore c) / 4 := by
  have h := subscoreSum_bounds c
  unfold estimate_quality
  dsimp only
  omega

/-- C1: for every input text `t`, `estimate_quality t` is an integer in
`[10, 100]`; the function is total (it is defined on every string,
including the empty string) and deterministic: a second call on an
identical text returns the identical score. -/
theorem estimate_quality_bounded_total_deterministic (t t' : String)
    (h : t' = t) :
    10 ≤ estimate_quality t ∧ estimate_quality t ≤ 100 ∧
      estimate_quality t' = estimate_quality t := by
  obtain ⟨h1, h2, _⟩ := estimate_quality_range t
  exact ⟨by omega, by omega, by rw [h]⟩

/-- Witness for C1 at the empty string. -/
theorem estimate_quality_bounded_total_deterministic_witness :
    10 ≤ estimate_quality "" ∧ estimate_quality "" ≤ 100 ∧
      estimate_quality "" = estimate_quality "" :=
  estimate_quality_bounded_total_deterministic "" "" rfl

/-- C9: every produced quality score lies in `[57, 97]`: the clamp
`max 10 (min 100 _)` is never active (the score always equals the
truncated sub-score average, so 100 is unreachable), the minimal
sub-scores `{50, 60, 70, 50}` are attained at `minText` giving 57, and
the maximal sub-scores `{100, 100, 90, 100}` are attained at `maxText`
giving 97. -/
theorem estimate_quality_actual_range :
    (∀ t : String, 57 ≤ estimate_quality t ∧ estimate_quality t ≤ 97 ∧
        estimate_quality t =
          (lengthScore t + structureScore t + docScore t + widthScore t) / 4 ∧
        estimate_quality t ≠ 100) ∧
      (lengthScore minText = 50 ∧ structureScore minText = 60 ∧
        docScore minText = 70 ∧ widthScore minText = 50 ∧
        estimate_quality minText = 57) ∧
      (lengthScore maxText = 100 ∧ structureScore maxText = 100 ∧
        docScore maxText = 90 ∧ widthScore maxText = 100 ∧
        estimate_quality maxText = 97) := by
  refine ⟨fun t => ?_, by decide, by decide⟩
  obtain ⟨h1, h2, h3⟩ := estimate_quality_range t
  exact ⟨h1, h2, h3, by omega⟩

/-- C10: `evaluate` always recommends `"deposit"`, because the produced
quality score is at least 57, so `quality >= 50` always holds and the
`"improve_quality"` branch is unreachable. -/
theorem evaluate_recommendation_always_deposit
    (hashCode : String → String) (code : String) :
    (evaluate hashCode code).recommendation = "deposit" := by
  have h := (estimate_quality_range code).1
  unfold evaluate
  dsimp only
  rw [if_pos (by omega)]

/-- C3: for every quality in `[10, 100]`, credits are `quality * 10`,
the price is the floor of `credits * 0.85` (exactly `credits * 17 / 20`
on this range), and the price never exceeds the credits. -/
theorem pricing_discount_never_inflates (q : Nat) (h1 : 10 ≤ q)
    (h2 : q ≤ 100) :
    creditsOf q = q * 10 ∧ priceOf q = q * 10 * 17 / 20 ∧
      priceOf q ≤ creditsOf q := by
  refine ⟨rfl, rfl, ?_⟩
  unfold priceOf creditsOf
  omega

/-- Witness for C3 at quality 60. -/
theorem pricing_discount_never_inflates_witness :
    creditsOf 60 = 60 * 10 ∧ priceOf 60 = 60 * 10 * 17 / 20 ∧
      priceOf 60 ≤ creditsOf 60 :=
  pricing_discount_never_inflates 60 (by decide) (by decide)

/-- C2 counterexample: `maxText` satisfies the scenario's conditions
(exactly 60 lines, a structure keyword, a comment marker, every line at
most 120 characters), yet its score is 97, not the claimed round-half-up
98: Python's `int()` truncates the average 97.5 downwards. -/
theorem scenario_score_is_97_not_98 :
    (maxText.toList.count '\n' + 1 = 60 ∧
      strContains maxText "def " = true ∧
      strContains maxText "#" = true ∧
      (∀ l ∈ splitOnNl maxText.toList, l.length ≤ 120)) ∧
    estimate_quality maxText = 97 ∧ estimate_quality maxText ≠ 98 := by
  decide

/-- C2 (amended): the final score is
`max(10, min(100, int(average(sub-scores))))` where `int` truncates
towards zero; for any text with exactly 60 lines, a `"def "` keyword and
a `"#"` marker, and every line at most 120 characters, the sub-scores
are `{100, 100, 90, 100}`, the truncated average of 97.5 is 97, credits
are 970, and the price is `int(970 * 0.85) = 824`. -/
theorem scenario_score_97 (t : String)
    (h60 : t.toList.count '\n' + 1 = 60)
    (hs : strContains t "def " = true)
    (hc : strContains t "#" = true)
    (hw : ∀ l ∈ splitOnNl t.toList, l.length ≤ 120) :
    lengthScore t = 100 ∧ structureScore t = 100 ∧ docScore t = 90 ∧
      widthScore t = 100 ∧ estimate_quality t = 97 ∧
      creditsOf (estimate_quality t) = 970 ∧
      priceOf (estimate_quality t) = 824 := by
  have hl : lengthScore t = 100 := by
    unfold lengthScore
    dsimp only
    rw [h60]
    norm_num
  have hst : structureScore t = 100 := by
    unfold structureScore
    rw [hs]
    rfl
  have hd : docScore t = 90 := by
    unfold docScore
    rw [hc]
    rfl
  have hwz : ((splitOnNl t.toList).filter fun l => 120 < l.length).length = 0 := by
    rw [List.length_eq_zero, List.filter_eq_nil_iff]
    intro l hmem
    simp only [decide_eq_true_eq]
    exact Nat.not_lt.mpr (hw l hmem)
  have hw100 : widthScore t = 100 := by
    unfold widthScore
    dsimp only
    rw [hwz]
    norm_num
  have hq : estimate_quality t = 97 := by
    unfold estimate_quality
    dsimp only
    rw [hl, hst, hd, hw100]
    decide
  exact ⟨hl, hst, hd, hw100, hq, by rw [hq]; decide, by rw [hq]; decide⟩

/-- Witness for C2's amended statement at `maxText`. -/
theorem scenario_score_97_witness :
    lengthScore maxText = 100 ∧ structureScore maxText = 100 ∧
      docScore maxText = 90 ∧ widthScore maxText = 100 ∧
      estimate_quality maxText = 97 ∧
      creditsOf (estimate_quality maxText) = 970 ∧
      priceOf (estimate_quality maxText) = 824 :=
  scenario_score_97 maxText (by decide) (by decide) (by decide) (by decide)

/-- C4: deposit of a text shorter than 50 characters fails with the 400
validation error and performs no port call at all: neither the Store Port
nor the Ledger Port is contacted. -/
theorem deposit_short_text_rejected_no_calls (ports : Ports)
    (hashCode : String → String) (addr code : String)
    (privateKey : Option String) (h : code.length < 50) :
    deposit ports hashCode addr code privateKey =
        (.error ⟨400, "Code too short (min 50 chars)"⟩, []) ∧
      (deposit ports hashCode addr code privateKey).2.filter isStoreCall = [] ∧
      (deposit ports hashCode addr code privateKey).2.filter isLedgerCall = [] := by
  have he : deposit ports hashCode addr code privateKey =
      (.error ⟨400, "Code too short (min 50 chars)"⟩, []) := by
    unfold deposit
    rw [if_pos h]
  exact ⟨he, by rw [he]; rfl, by rw [he]; rfl⟩

/-- Witness for C4 on a 5-character text. -/
theorem deposit_short_text_rejected_no_calls_witness :
    deposit happyPorts id "0xshop" "short" none =
        (.error ⟨400, "Code too short (min 50 chars)"⟩, []) ∧
      (deposit happyPorts id "0xshop" "short" none).2.filter isStoreCall = [] ∧
      (deposit happyPorts id "0xshop" "short" none).2.filter isLedgerCall = [] :=
  deposit_short_text_rejected_no_calls happyPorts id "0xshop" "short" none
    (by decide)

/-- C5: purchase of a pattern that is absent from the ledger (or stored
with `active = false`) fails with the 404 error; the trace is the single
ledger read, so no signed transaction — and hence no balance mutation —
is issued. -/
theorem purchase_absent_pattern_not_found_no_write (ports : Ports)
    (addr codeHash pk : String) (haddr : addr ≠ "")
    (habsent : ∀ p, ports.patterns codeHash = some p → p.active = false) :
    purchase ports addr codeHash pk =
        (.error ⟨404, "Pattern not found or inactive"⟩,
          [.ledgerGetPattern codeHash]) ∧
      (purchase ports addr codeHash pk).2.filter isLedgerWrite = [] := by
  have hact : (ports.getPattern codeHash).active = false := by
    unfold Ports.getPattern
    cases hp : ports.patterns codeHash with
    | none => rfl
    | some p => exact habsent p hp
  have he : purchase ports addr codeHash pk =
      (.error ⟨404, "Pattern not found or inactive"⟩,
        [.ledgerGetPattern codeHash]) := by
    unfold purchase
    rw [if_neg haddr]
    dsimp only
    rw [if_pos hact]
  exact ⟨he, by rw [he]; rfl⟩

/-- Witness for C5 against an empty ledger. -/
theorem purchase_absent_pattern_not_found_no_write_witness :
    purchase happyPorts "0xshop" "0xhash" "0xkey" =
        (.error ⟨404, "Pattern not found or inactive"⟩,
          [.ledgerGetPattern "0xhash"]) ∧
      (purchase happyPorts "0xshop" "0xhash" "0xkey").2.filter isLedgerWrite =
        [] :=
  purchase_absent_pattern_not_found_no_write happyPorts "0xshop" "0xhash"
    "0xkey" (by decide) (fun p hp => by simp [happyPorts] at hp)

/-- C6: when the ledger reports no access grant, `check_access` answers
`{has_access: false, code: null}` after the single ledger query; the
Store Port is never contacted. -/
theorem check_access_denied_no_store_call (ports : Ports)
    (addr buyer codeHash : String) (haddr : addr ≠ "")
    (hna : ports.hasAccess buyer codeHash = false) :
    check_access ports addr buyer codeHash =
        (.ok .denied, [.ledgerHasAccess buyer codeHash]) ∧
      AccessResponse.denied.hasAccess = false ∧
      AccessResponse.denied.code = none ∧
      (check_access ports addr buyer codeHash).2.filter isStoreCall = [] := by
  have he : check_access ports addr buyer codeHash =
      (.ok .denied, [.ledgerHasAccess buyer codeHash]) := by
    unfold check_access
    rw [if_neg haddr, if_pos hna]
  exact ⟨he, rfl, rfl, by rw [he]; rfl⟩

/-- Witness for C6 with a buyer holding no grant. -/
theorem check_access_denied_no_store_call_witness :
    check_access happyPorts "0xshop" "0xbuyer" "0xhash" =
        (.ok .denied, [.ledgerHasAccess "0xbuyer" "0xhash"]) ∧
      AccessResponse.denied.hasAccess = false ∧
      AccessResponse.denied.code = none ∧
      (check_access happyPorts "0xshop" "0xbuyer" "0xhash").2.filter
        isStoreCall = [] :=
  check_access_denied_no_store_call happyPorts "0xshop" "0xbuyer" "0xhash"
    (by decide) rfl

/-- C7: when the ledger reports access and the store fetch fails,
`check_access` still succeeds (no error is raised): it reports
`has_access: true` with a null `code` — the store failure is swallowed,
never surfaced. -/
theorem check_access_store_failure_swallowed (ports : Ports)
    (addr buyer codeHash : String) (haddr : addr ≠ "")
    (hacc : ports.hasAccess buyer codeHash = true)
    (hfail : ports.storeGet (ports.getPattern codeHash).ipfsUri = none) :
    check_access ports addr buyer codeHash =
        (.ok (.granted (ports.getPattern codeHash).ipfsUri none),
          [.ledgerHasAccess buyer codeHash, .ledgerGetPattern codeHash,
            .storeGet (ports.getPattern codeHash).ipfsUri]) ∧
      (AccessResponse.granted (ports.getPattern codeHash).ipfsUri
          none).hasAccess = true ∧
      (AccessResponse.granted (ports.getPattern codeHash).ipfsUri
          none).code = none := by
  have he : check_access ports addr buyer codeHash =
      (.ok (.granted (ports.getPattern codeHash).ipfsUri none),
        [.ledgerHasAccess buyer codeHash, .ledgerGetPattern codeHash,
          .storeGet (ports.getPattern codeHash).ipfsUri]) := by
    unfold check_access
    rw [if_neg haddr, if_neg (by rw [hacc]; exact fun hcon => by cases hcon)]
    dsimp only
    rw [hfail]
  exact ⟨he, rfl, rfl⟩

/-- Witness for C7 on ports whose store always fails. -/
theorem check_access_store_failure_swallowed_witness :
    check_access failStorePorts "0xshop" "0xbuyer" "0xhash" =
        (.ok (.granted (failStorePorts.getPattern "0xhash").ipfsUri none),
          [.ledgerHasAccess "0xbuyer" "0xhash", .ledgerGetPattern "0xhash",
            .storeGet (failStorePorts.getPattern "0xhash").ipfsUri]) ∧
      (AccessResponse.granted (failStorePorts.getPattern "0xhash").ipfsUri
          none).hasAccess = true ∧
      (AccessResponse.granted (failStorePorts.getPattern "0xhash").ipfsUri
          none).code = none :=
  check_access_store_failure_swallowed failStorePorts "0xshop" "0xbuyer"
    "0xhash" (by decide) rfl rfl

/-- C8: a deposit in quote mode (no signing credential) returns the
unsigned record carrying the content hash, retrieval URI, quality,
credits and the unsigned write descriptor, and its trace is the single
store upload: the Ledger Port is never contacted, so no transaction is
built, signed or sent. -/
theorem deposit_quote_mode_unsigned_no_ledger (ports : Ports)
    (hashCode : String → String) (addr code uri : String)
    (hlen : 50 ≤ code.length) (hput : ports.storePut code = some uri) :
    deposit ports hashCode addr code none =
        (.ok (.quote ⟨hashCode code, uri, estimate_quality code,
            estimate_quality code * 10,
            ⟨addr, "deposit", hashCode code, uri, estimate_quality code⟩,
            "Sign and submit this transaction to deposit"⟩),
          [.storePut code]) ∧
      (deposit ports hashCode addr code none).2.filter isLedgerCall = [] := by
  have he : deposit ports hashCode addr code none =
      (.ok (.quote ⟨hashCode code, uri, estimate_quality code,
          estimate_quality code * 10,
          ⟨addr, "deposit", hashCode code, uri, estimate_quality code⟩,
          "Sign and submit this transaction to deposit"⟩),
        [.storePut code]) := by
    unfold deposit
    rw [if_neg (by omega)]
    dsimp only
    rw [hput]
    rfl
  exact ⟨he, by rw [he]; rfl⟩

/-- Witness for C8 on a 55-character sample. -/
theorem deposit_quote_mode_unsigned_no_ledger_witness :
    deposit happyPorts id "0xshop" quoteCode none =
        (.ok (.quote ⟨id quoteCode, "ipfs://mock/1234567890abcdef",
            estimate_quality quoteCode, estimate_quality quoteCode * 10,
            ⟨"0xshop", "deposit", id quoteCode, "ipfs://mock/1234567890abcdef",
              estimate_quality quoteCode⟩,
            "Sign and submit this transaction to deposit"⟩),
          [.storePut quoteCode]) ∧
      (deposit happyPorts id "0xshop" quoteCode none).2.filter isLedgerCall =
        [] :=
  deposit_quote_mode_unsigned_no_ledger happyPorts id "0xshop" quoteCode
    "ipfs://mock/1234567890abcdef" (by decide) rfl

end PawnShop

